import Mathlib

/-!
Verification of the Verilator test-bench driver `csrc/verilator-main.cpp`.

The driver is a single `main` routine: it parses plusargs (a mandatory
`+random_seed=<int>`, an optional `+vcdfile=<path>` when compiled with
`VM_TRACE`, an optional `+heartbeat` flag), constructs the model, runs a
clock/reset drive loop until `Verilated::gotFinish()`, then tears down and
reports CPU time.  The development below embeds the driver-visible state
and control flow of that routine and proves the specification claims
about it.
-/

/-- Modulus of the C type `uint64_t` of the global counter `main_time`. -/
def u64Mod : Nat := 2 ^ 64

/-- The reset hold threshold `(770 << 1)` from the deassertion condition
`main_time >= (770 << 1)`. -/
def resetDelay : Nat := 770 <<< 1

/-- Driver-visible mutable state of the simulation loop: the global
`main_time` counter (a `uint64_t`, kept as a natural number modulo `2 ^ 64`)
and the model input signals `top->reset` and `top->clock`. -/
structure SimState where
  main_time : Nat
  reset : Nat
  clock : Nat
deriving DecidableEq, Repr

/-- State right before the loop: `main_time = 0`, `top->reset = 1`,
`top->clock = 1`. -/
def initState : SimState := { main_time := 0, reset := 1, clock := 1 }

/-- The reset-deassertion conditional at the top of the loop body:
`if (top->reset == 1 && main_time >= (770 << 1)) top->reset = 0;`. -/
def stepReset (s : SimState) : SimState :=
  if s.reset = 1 ∧ resetDelay ≤ s.main_time then { s with reset := 0 } else s

/-- The clock conditional: `top->clock = 1` when `main_time % 2 == 0`,
else `top->clock = 0`. -/
def stepClock (s : SimState) : SimState :=
  if s.main_time % 2 = 0 then { s with clock := 1 } else { s with clock := 0 }

/-- The state with which `top->eval()` is called in an iteration that
starts in state `s`: reset deassertion and clock assignment have been
applied, `main_time` not yet incremented. -/
def evalState (s : SimState) : SimState := stepClock (stepReset s)

/-- `main_time++` on the `uint64_t` counter. -/
def stepTime (s : SimState) : SimState :=
  { s with main_time := (s.main_time + 1) % u64Mod }

/-- One full iteration of the drive loop, as it acts on the
driver-visible state. -/
def loopBody (s : SimState) : SimState := stepTime (evalState s)

/-- State after `n` executed iterations of the drive loop. -/
def simRun : Nat → SimState
  | 0 => initState
  | n + 1 => loopBody (simRun n)

lemma resetDelay_eq : resetDelay = 1540 := by decide

lemma stepReset_main_time (s : SimState) :
    (stepReset s).main_time = s.main_time := by
  unfold stepReset; split <;> rfl

lemma stepClock_main_time (s : SimState) :
    (stepClock s).main_time = s.main_time := by
  unfold stepClock; split <;> rfl

lemma evalState_main_time (s : SimState) :
    (evalState s).main_time = s.main_time := by
  unfold evalState; rw [stepClock_main_time, stepReset_main_time]

lemma stepTime_main_time (s : SimState) :
    (stepTime s).main_time = (s.main_time + 1) % u64Mod := rfl

lemma stepTime_reset (s : SimState) : (stepTime s).reset = s.reset := rfl

lemma stepClock_reset (s : SimState) : (stepClock s).reset = s.reset := by
  unfold stepClock; split <;> rfl

lemma stepReset_reset (s : SimState) :
    (stepReset s).reset =
      if s.reset = 1 ∧ resetDelay ≤ s.main_time then 0 else s.reset := by
  unfold stepReset; split <;> simp_all

lemma evalState_reset (s : SimState) :
    (evalState s).reset = (stepReset s).reset := by
  unfold evalState; rw [stepClock_reset]

lemma evalState_clock (s : SimState) :
    (evalState s).clock = if s.main_time % 2 = 0 then 1 else 0 := by
  unfold evalState stepClock
  rw [stepReset_main_time]
  split <;> rfl

lemma simRun_main_time (n : Nat) : (simRun n).main_time = n % u64Mod := by
  induction n with
  | zero => simp [simRun, initState]
  | succ n ih =>
    show (loopBody (simRun n)).main_time = (n + 1) % u64Mod
    rw [loopBody, stepTime_main_time, evalState_main_time, ih]
    norm_num [u64Mod]

lemma simRun_reset (n : Nat) :
    (simRun n).reset = if n ≤ resetDelay then 1 else 0 := by
  rw [resetDelay_eq]
  induction n with
  | zero => simp [simRun, initState]
  | succ n ih =>
    show (loopBody (simRun n)).reset = _
    rw [loopBody, stepTime_reset, evalState_reset, stepReset_reset, simRun_main_time, ih,
        resetDelay_eq]
    have hmod : n ≤ 1540 → n % u64Mod = n := fun h =>
      Nat.mod_eq_of_lt (by norm_num [u64Mod]; omega)
    split_ifs <;> omega

lemma evalState_simRun_reset (n : Nat) :
    (evalState (simRun n)).reset = if n < resetDelay then 1 else 0 := by
  rw [evalState_reset, stepReset_reset, simRun_main_time, simRun_reset, resetDelay_eq]
  have hmod : n ≤ 1540 → n % u64Mod = n := fun h =>
    Nat.mod_eq_of_lt (by norm_num [u64Mod]; omega)
  split_ifs <;> omega

lemma evalState_simRun_clock (n : Nat) :
    (evalState (simRun n)).clock = if n % 2 = 0 then 1 else 0 := by
  rw [evalState_clock, simRun_main_time]
  have h : n % u64Mod % 2 = n % 2 := Nat.mod_mod_of_dvd n (by norm_num [u64Mod])
  rw [h]

/-! ## Event-level model of one loop iteration

`iterEvents` lists, in program order, the observable actions of one
iteration of the drive loop starting in driver state `s`:
the reset-deassertion conditional (which also prints a message), the
clock assignment, the heartbeat print (inside the even-time branch,
guarded by `heartbeat && (main_time % 1000) == 0`), the `top->eval()`
call, the `main_time++` increment, and — when compiled with `VM_TRACE`
and a `+vcdfile` was given — the `tfp->dump(main_time)` call, which runs
after the increment and therefore receives the incremented time. -/

inductive Step where
  | deassertReset (time : Nat)
  | setClock (v : Nat)
  | heartbeatMsg (time : Nat)
  | evalModel
  | advanceTime
  | dumpTrace (time : Nat)
deriving DecidableEq, Repr

/-- Observable actions of one loop iteration, in program order.
`hb` is the value of the `heartbeat` test-plusarg; `tracing` is true when
the program was compiled with `VM_TRACE == 1` and `tfp` is non-null. -/
def iterEvents (hb tracing : Bool) (s : SimState) : List Step :=
  (if s.reset = 1 ∧ resetDelay ≤ s.main_time then [Step.deassertReset s.main_time] else [])
  ++ (if s.main_time % 2 = 0 then
        Step.setClock 1 ::
          (if hb = true ∧ s.main_time % 1000 = 0 then [Step.heartbeatMsg s.main_time] else [])
      else [Step.setClock 0])
  ++ [Step.evalModel, Step.advanceTime]
  ++ (if tracing = true then [Step.dumpTrace ((s.main_time + 1) % u64Mod)] else [])

def isDeassertStep : Step → Bool
  | Step.deassertReset _ => true
  | _ => false

def isClockStep : Step → Bool
  | Step.setClock _ => true
  | _ => false

def isEvalStep : Step → Bool
  | Step.evalModel => true
  | _ => false

def isAdvanceStep : Step → Bool
  | Step.advanceTime => true
  | _ => false

def isDumpStep : Step → Bool
  | Step.dumpTrace _ => true
  | _ => false

/-! ## Loop control

The drive loop is `while (!Verilated::gotFinish()) { body }`.  The value
of `Verilated::gotFinish()` is set by the external model; we model the
sequence of values the driver observes as an oracle `g : Nat → Bool`,
`g n` being the value read at the check performed before iteration `n`
(so `g n` reflects the model state after the first `n` calls to
`top->eval()`).  Iteration `n` of the body executes exactly when every
check up to and including the `n`-th read false. -/

def iterExecutes (g : Nat → Bool) (n : Nat) : Prop :=
  ∀ m, m ≤ n → g m = false

instance (g : Nat → Bool) (n : Nat) : Decidable (iterExecutes g n) :=
  inferInstanceAs (Decidable (∀ m, m ≤ n → g m = false))

/-! ## Program entry and teardown -/

/-- Stdout messages of the seed-handling prologue. -/
inductive InitEvent where
  | infoSeed (seed : Nat)
  | errorSeedMissing
deriving DecidableEq, Repr

/-- The `+random_seed=%d` prologue of `main` (lines 46–53): when the
plusarg is present with parsed 32-bit value `sd`, the program calls
`srand48(sd)`, prints the info line and continues (`ok (sd, infoSeed sd)`;
the first component is the argument passed to `srand48`); when it is
absent, the program prints the error line and calls `exit(44)`. -/
def mainInit (randomSeed : Option Nat) : Except (Nat × InitEvent) (Nat × InitEvent) :=
  match randomSeed with
  | some sd => Except.ok (sd, InitEvent.infoSeed sd)
  | none => Except.error (44, InitEvent.errorSeedMissing)

/-- Teardown actions after the drive loop exits, in program order
(lines 100–142): `top->final()`, `tfp->close()` when tracing,
`VerilatedCov::write` when compiled with `VM_COVERAGE`, `delete top`,
the CPU-time line on `stderr` (computed from the `utime` and `stime`
fields read from `/proc/<pid>/stat`), and `exit(0)`. -/
inductive TStep where
  | finalModel
  | closeTrace
  | writeCoverage
  | deleteModel
  | cpuTimeReport (utime stime : Nat)
  | exitCall (code : Nat)
deriving DecidableEq, Repr

def teardownEvents (tracing coverage : Bool) (utime stime : Nat) : List TStep :=
  [TStep.finalModel]
  ++ (if tracing = true then [TStep.closeTrace] else [])
  ++ (if coverage = true then [TStep.writeCoverage] else [])
  ++ [TStep.deleteModel, TStep.cpuTimeReport utime stime, TStep.exitCall 0]

def isFinalStep : TStep → Bool
  | TStep.finalModel => true
  | _ => false

def isCloseStep : TStep → Bool
  | TStep.closeTrace => true
  | _ => false

def isCoverageStep : TStep → Bool
  | TStep.writeCoverage => true
  | _ => false

def isDeleteStep : TStep → Bool
  | TStep.deleteModel => true
  | _ => false

def isCpuReportStep : TStep → Bool
  | TStep.cpuTimeReport _ _ => true
  | _ => false

/-- Among the teardown actions, only the CPU-time line goes to the
diagnostic stream (`std::cerr`); everything else writes to stdout or to
files. -/
def isStderrStep : TStep → Bool
  | TStep.cpuTimeReport _ _ => true
  | _ => false

/-- The first `exit` call in a teardown action list, if any. -/
def exitCodeOf : List TStep → Option Nat
  | [] => none
  | TStep.exitCall c :: _ => some c
  | _ :: rest => exitCodeOf rest

/-- Run-time configuration read from plusargs. -/
structure ProgConfig where
  randomSeed : Option Nat
  vcdfile : Option String
  heartbeat : Bool
deriving DecidableEq, Repr

/-- Tracing is active when the binary was compiled with `VM_TRACE == 1`
and a `+vcdfile=%s` plusarg was supplied (then `tfp` is non-null). -/
def tracingOn (vmTrace : Bool) (cfg : ProgConfig) : Bool :=
  vmTrace && cfg.vcdfile.isSome

/-- Exit code of a run of `main`: `exit(44)` from the prologue when the
seed plusarg is missing; otherwise — on a run whose drive loop reaches
normal completion — the code of the `exit` call performed by the
teardown sequence. -/
def runExitCode (vmTrace coverage : Bool) (cfg : ProgConfig) (utime stime : Nat) : Option Nat :=
  match mainInit cfg.randomSeed with
  | Except.error (c, _) => some c
  | Except.ok _ => exitCodeOf (teardownEvents (tracingOn vmTrace cfg) coverage utime stime)

/-! ## The exported debug hook `plusarg_value` (lines 25–37)

The C function builds the scan format `plusarg + "%s"`, looks the value
up with `VL_VALUEPLUSARGS_INN` (modelled by the oracle
`lookup : String → String`, giving the string the scan writes), copies
it with an unchecked `strcpy` into a 1024-byte `static char buffer`, and
returns `buffer`.  The function result is the pair (returned pointer,
new contents of the static buffer); `Ptr.staticBuffer` is the single
address the function can ever return. -/

inductive Ptr where
  | staticBuffer
deriving DecidableEq, Repr

/-- Size in bytes of `static char buffer[1024]`. -/
def bufferSize : Nat := 1024

/-- The scan format built from the queried plusarg name. -/
def lookupFormat (plusarg : String) : String := plusarg ++ "%s"

/-- Number of bytes `strcpy` writes for value `v`: the characters of `v`
plus the NUL terminator. -/
def strcpyWriteCount (v : String) : Nat := v.length + 1

/-- The unchecked `strcpy` stays inside `buffer`. -/
def strcpyInBounds (v : String) : Prop := strcpyWriteCount v ≤ bufferSize

instance (v : String) : Decidable (strcpyInBounds v) :=
  inferInstanceAs (Decidable (strcpyWriteCount v ≤ bufferSize))

/-- One call of the hook: `buf` is the current contents of the static
buffer; the call overwrites it with the looked-up value and returns the
address of the static buffer. -/
def plusarg_value (lookup : String → String) (plusarg : String) (_buf : String) :
    Ptr × String :=
  (Ptr.staticBuffer, lookup (lookupFormat plusarg))

/-! ## Shared facts -/

lemma exitCodeOf_teardown (tr cov : Bool) (u s : Nat) :
    exitCodeOf (teardownEvents tr cov u s) = some 0 := by
  cases tr <;> cases cov <;> rfl

/-! ## Claims -/

/-- Claim C1: the missing `+random_seed` plusarg is the only checked
failure.  `main` exits with the fixed code 44 exactly when the seed is
absent, printing the error diagnostic in that case; when the seed is
present the run seeds `srand48` with it (the first component of the
`ok` value) and continues; and every exit code a run can produce is 44
(seed missing) or 0 (normal completion) — no other condition has a
failure path. -/
theorem spec_C1 (vmTrace coverage : Bool) (cfg : ProgConfig) (utime stime : Nat) :
    (runExitCode vmTrace coverage cfg utime stime = some 44 ↔ cfg.randomSeed = none) ∧
    mainInit none = Except.error (44, InitEvent.errorSeedMissing) ∧
    (∀ sd, mainInit (some sd) = Except.ok (sd, InitEvent.infoSeed sd)) ∧
    (∀ c, runExitCode vmTrace coverage cfg utime stime = some c → c = 44 ∨ c = 0) := by
  have hok : ∀ sd, cfg.randomSeed = some sd →
      runExitCode vmTrace coverage cfg utime stime = some 0 := by
    intro sd h
    simp [runExitCode, h, mainInit, exitCodeOf_teardown]
  refine ⟨⟨?_, ?_⟩, rfl, fun sd => rfl, ?_⟩
  · intro h
    cases hcs : cfg.randomSeed with
    | none => rfl
    | some sd => rw [hok sd hcs] at h; exact absurd h (by simp)
  · intro h
    simp [runExitCode, h, mainInit]
  · intro c hc
    cases hcs : cfg.randomSeed with
    | none =>
      left
      simp [runExitCode, hcs, mainInit] at hc
      omega
    | some sd =>
      right
      rw [hok sd hcs] at hc
      simp at hc
      omega

/-- Claim C1 witness: a run with no `+random_seed` exits with code 44,
and that code is one of the two possible codes. -/
theorem spec_C1_witness :
    runExitCode false false ⟨none, none, false⟩ 1 2 = some 44 ∧
      ((44 : Nat) = 44 ∨ (44 : Nat) = 0) :=
  ⟨(spec_C1 false false ⟨none, none, false⟩ 1 2).1.mpr rfl,
   (spec_C1 false false ⟨none, none, false⟩ 1 2).2.2.2 44
     ((spec_C1 false false ⟨none, none, false⟩ 1 2).1.mpr rfl)⟩

/-- Claim C2 counterexample: `main_time` is a 64-bit counter, so at
iteration `2 ^ 64` it has wrapped back to 0, which is below the
threshold 1540, yet the model is evaluated with `reset = 0`, not 1 —
the claim's "every iteration whose main_time is below 1540 is evaluated
with reset == 1" fails there. -/
theorem spec_C2_cex :
    (simRun (2 ^ 64)).main_time < 1540 ∧ (evalState (simRun (2 ^ 64))).reset ≠ 1 := by
  constructor
  · rw [simRun_main_time]
    norm_num [u64Mod]
  · rw [evalState_simRun_reset, resetDelay_eq, if_neg (by norm_num)]
    norm_num

/-- Claim C2 (amended): within the first `2 ^ 64` iterations — before
the 64-bit `main_time` counter wraps — every iteration whose `main_time`
is below 1540 (= 770 << 1) evaluates the model with `reset = 1`; every
iteration whose `main_time` is at or above 1540 evaluates it with
`reset = 0` (this direction holds unconditionally); and once deasserted,
reset is never reasserted. -/
theorem spec_C2_amended (n : Nat) :
    (n < u64Mod → (simRun n).main_time < resetDelay →
      (evalState (simRun n)).reset = 1) ∧
    (resetDelay ≤ (simRun n).main_time → (evalState (simRun n)).reset = 0) ∧
    ((evalState (simRun n)).reset = 0 → (evalState (simRun (n + 1))).reset = 0) := by
  refine ⟨?_, ?_, ?_⟩
  · intro hn hlt
    rw [simRun_main_time, Nat.mod_eq_of_lt hn] at hlt
    rw [evalState_simRun_reset, if_pos hlt]
  · intro hge
    rw [simRun_main_time] at hge
    have hn : resetDelay ≤ n := le_trans hge (Nat.mod_le n u64Mod)
    rw [evalState_simRun_reset, if_neg (by omega)]
  · intro h
    rw [evalState_simRun_reset] at h
    rw [evalState_simRun_reset]
    split_ifs at h ⊢ <;> omega

/-- Claim C2 witness: the first iteration evaluates with reset 1; the
iteration at `main_time = 1540` evaluates with reset 0 and so does the
next one. -/
theorem spec_C2_witness :
    (evalState (simRun 0)).reset = 1 ∧ (evalState (simRun 1540)).reset = 0 ∧
      (evalState (simRun 1541)).reset = 0 :=
  ⟨(spec_C2_amended 0).1 (by norm_num [u64Mod]) (by decide),
   (spec_C2_amended 1540).2.1 (by rw [simRun_main_time, resetDelay_eq]; norm_num [u64Mod]),
   (spec_C2_amended 1540).2.2
     ((spec_C2_amended 1540).2.1
       (by rw [simRun_main_time, resetDelay_eq]; norm_num [u64Mod]))⟩

/-- Claim C3: every iteration evaluates the model with `clock = 1` when
its `main_time` is even and `clock = 0` when it is odd; equivalently the
clock value at the `n`-th evaluation is 1 for even `n` and 0 for odd
`n`, so consecutive evaluations alternate, starting at 1. -/
theorem spec_C3 (n : Nat) :
    (evalState (simRun n)).clock = (if (simRun n).main_time % 2 = 0 then 1 else 0) ∧
    (evalState (simRun n)).clock = (if n % 2 = 0 then 1 else 0) ∧
    (evalState (simRun 0)).clock = 1 ∧
    (evalState (simRun (n + 1))).clock ≠ (evalState (simRun n)).clock := by
  refine ⟨evalState_clock (simRun n), evalState_simRun_clock n, by decide, ?_⟩
  rw [evalState_simRun_clock, evalState_simRun_clock]
  split_ifs <;> omega

/-- Claim C3 witness: the clock values of the first two evaluations
differ. -/
theorem spec_C3_witness :
    (evalState (simRun 1)).clock ≠ (evalState (simRun 0)).clock :=
  (spec_C3 0).2.2.2

/-- Claim C4 counterexample: in an iteration with tracing enabled
(here: the first iteration, no heartbeat), the trace dump does NOT occur
before the time advance — `main_time++` runs first and `tfp->dump` is
called after it, with the incremented time. -/
theorem spec_C4_cex :
    ¬ ((iterEvents false true initState).findIdx isDumpStep <
        (iterEvents false true initState).findIdx isAdvanceStep) := by decide

/-- Claim C4 (amended): each iteration performs its steps in this
order: check/deassert reset (first, when it fires), set the clock for
the current time step, evaluate the model, advance the time counter, and
only then optionally dump a trace sample — i.e. the optional trace dump
of an iteration occurs after `main_time` is incremented, and the sample
is dumped at the incremented time `main_time + 1`. -/
theorem spec_C4_amended (hb tr : Bool) (s : SimState) :
    (∀ t, Step.dumpTrace t ∈ iterEvents hb tr s →
      tr = true ∧ t = (s.main_time + 1) % u64Mod) ∧
    (iterEvents hb tr s).findIdx isClockStep < (iterEvents hb tr s).findIdx isEvalStep ∧
    (iterEvents hb tr s).findIdx isEvalStep < (iterEvents hb tr s).findIdx isAdvanceStep ∧
    (tr = true →
      (iterEvents hb tr s).findIdx isAdvanceStep <
        (iterEvents hb tr s).findIdx isDumpStep) ∧
    (s.reset = 1 ∧ resetDelay ≤ s.main_time →
      (iterEvents hb tr s).findIdx isDeassertStep = 0) := by
  unfold iterEvents
  split_ifs <;>
    simp_all [List.findIdx_cons, isClockStep, isEvalStep, isAdvanceStep, isDumpStep,
      isDeassertStep]

/-- Claim C4 witness: in the first iteration with tracing on, the time
advance strictly precedes the trace dump, the dumped time is the
incremented one, and in an iteration where the reset check fires the
deassertion is the first step. -/
theorem spec_C4_witness :
    (iterEvents false true initState).findIdx isAdvanceStep <
        (iterEvents false true initState).findIdx isDumpStep ∧
      (1 : Nat) = (initState.main_time + 1) % u64Mod ∧
      (iterEvents false true { main_time := 1540, reset := 1, clock := 0 }).findIdx
          isDeassertStep = 0 :=
  ⟨(spec_C4_amended false true initState).2.2.2.1 rfl,
   ((spec_C4_amended false true initState).1 1 (by decide)).2,
   (spec_C4_amended false true { main_time := 1540, reset := 1, clock := 0 }).2.2.2.2
     ⟨rfl, by decide⟩⟩

/-- Claim C5: on every run that reaches normal completion of the
simulation loop (the seed plusarg was present, so the prologue did not
exit), the process exit code is zero, whatever the simulation outcome —
the teardown path ends in `exit(0)` unconditionally. -/
theorem spec_C5 (vmTrace coverage : Bool) (cfg : ProgConfig) (utime stime : Nat)
    (sd : Nat) (h : cfg.randomSeed = some sd) :
    runExitCode vmTrace coverage cfg utime stime = some 0 := by
  simp [runExitCode, h, mainInit, exitCodeOf_teardown]

/-- Claim C5 witness: a completed run with tracing and coverage enabled
exits with code 0. -/
theorem spec_C5_witness :
    runExitCode true true ⟨some 7, some "waves.vcd", true⟩ 3 4 = some 0 :=
  spec_C5 true true ⟨some 7, some "waves.vcd", true⟩ 3 4 7 rfl

/-- Claim C6 counterexample: `main_time` is a `uint64_t`, so the
iteration that starts with `main_time = 2 ^ 64 - 1` wraps the counter to
0 — a decrease, and not an increment by one — refuting "monotonically
increasing" and "never decremented" over all iterations. -/
theorem spec_C6_cex :
    (simRun (2 ^ 64)).main_time < (simRun (2 ^ 64 - 1)).main_time ∧
      (simRun (2 ^ 64)).main_time ≠ (simRun (2 ^ 64 - 1)).main_time + 1 := by
  rw [simRun_main_time, simRun_main_time]
  norm_num [u64Mod]

/-- Claim C6 (amended): `main_time` starts at 0 and every loop
iteration increments it by exactly one modulo `2 ^ 64` (it is a 64-bit
counter); no statement ever decrements or resets it, and it is strictly
increasing throughout the first `2 ^ 64` iterations, wrapping to 0 only
if the loop reaches iteration `2 ^ 64`. -/
theorem spec_C6_amended (n : Nat) :
    (simRun 0).main_time = 0 ∧
    (simRun (n + 1)).main_time = ((simRun n).main_time + 1) % u64Mod ∧
    (n + 1 < u64Mod → (simRun n).main_time < (simRun (n + 1)).main_time) := by
  refine ⟨rfl, ?_, ?_⟩
  · show (loopBody (simRun n)).main_time = _
    rw [loopBody, stepTime_main_time, evalState_main_time]
  · intro h
    rw [simRun_main_time, simRun_main_time,
        Nat.mod_eq_of_lt (show n < u64Mod by omega), Nat.mod_eq_of_lt h]
    omega

/-- Claim C6 witness: across the sixth iteration the counter strictly
increases. -/
theorem spec_C6_witness : (simRun 5).main_time < (simRun 6).main_time :=
  (spec_C6_amended 5).2.2 (by norm_num [u64Mod])

/-- Claim C7: an iteration prints the heartbeat line exactly when the
`+heartbeat` flag was given and the iteration's `main_time` is a
multiple of 1000 (such times are even, so the print inside the even-time
branch fires at exactly those iterations); without the flag no heartbeat
line is ever printed. -/
theorem spec_C7 (hb tr : Bool) (s : SimState) (t : Nat) :
    Step.heartbeatMsg t ∈ iterEvents hb tr s ↔
      hb = true ∧ s.main_time % 1000 = 0 ∧ t = s.main_time := by
  unfold iterEvents
  split_ifs with h1 h2 h3 <;> simp_all <;> omega

/-- Claim C8: the drive loop runs until, and only until, the model
signals completion: when some finish check reads true, exactly the
iterations before the first such check execute (so the loop terminates
after finitely many evaluations); when every check reads false, every
iteration executes (the loop never exits). -/
theorem spec_C8 (g : Nat → Bool) :
    (∀ h : ∃ k, g k = true, ∀ n, iterExecutes g n ↔ n < Nat.find h) ∧
    ((∀ k, g k = false) → ∀ n, iterExecutes g n) := by
  constructor
  · intro h n
    constructor
    · intro hex
      by_contra hlt
      push_neg at hlt
      exact absurd (hex (Nat.find h) hlt) (by simp [Nat.find_spec h])
    · intro hn m hm
      have hmin := Nat.find_min h (lt_of_le_of_lt hm hn)
      simpa using hmin
  · intro hall n m _
    exact hall m

/-- Claim C8 witness: with a never-true finish oracle every iteration
executes; with an oracle that is true at the very first check, iteration
0 does not execute. -/
theorem spec_C8_witness :
    iterExecutes (fun _ => false) 5 ∧ ¬ iterExecutes (fun k => k == 0) 0 := by
  constructor
  · exact (spec_C8 (fun _ => false)).2 (fun _ => rfl) 5
  · intro hex
    have h := ((spec_C8 (fun k => k == 0)).1 ⟨0, rfl⟩ 0).mp hex
    have h0 : Nat.find (⟨0, rfl⟩ : ∃ k, (fun k => k == 0) k = true) = 0 := by
      simp [Nat.find_eq_zero]
    rw [h0] at h
    exact absurd h (by omega)

/-- Claim C9: after the loop exits, the single completion path performs
its teardown actions in order — `top->final()` first, then closing the
trace file exactly when one was opened, then writing coverage data
exactly when coverage is enabled, then destroying the model, then the
CPU-time line built from the `utime` and `stime` process-accounting
fields, which is the only teardown action on the diagnostic stream
(stderr) — and the sequence ends with the `exit` call. -/
theorem spec_C9 (tr cov : Bool) (u s : Nat) :
    (teardownEvents tr cov u s).findIdx isFinalStep = 0 ∧
    (tr = true →
      (teardownEvents tr cov u s).findIdx isFinalStep <
          (teardownEvents tr cov u s).findIdx isCloseStep ∧
        (teardownEvents tr cov u s).findIdx isCloseStep <
          (teardownEvents tr cov u s).findIdx isDeleteStep) ∧
    (cov = true →
      (teardownEvents tr cov u s).findIdx isCoverageStep <
          (teardownEvents tr cov u s).findIdx isDeleteStep ∧
        (tr = true →
          (teardownEvents tr cov u s).findIdx isCloseStep <
            (teardownEvents tr cov u s).findIdx isCoverageStep)) ∧
    (TStep.closeTrace ∈ teardownEvents tr cov u s ↔ tr = true) ∧
    (TStep.writeCoverage ∈ teardownEvents tr cov u s ↔ cov = true) ∧
    (teardownEvents tr cov u s).findIdx isDeleteStep <
      (teardownEvents tr cov u s).findIdx isCpuReportStep ∧
    TStep.cpuTimeReport u s ∈ teardownEvents tr cov u s ∧
    (∀ e ∈ teardownEvents tr cov u s, isStderrStep e = true → e = TStep.cpuTimeReport u s) ∧
    (teardownEvents tr cov u s).getLast? = some (TStep.exitCall 0) := by
  cases tr <;> cases cov <;>
    simp_all [teardownEvents, List.findIdx_cons, isFinalStep, isCloseStep, isCoverageStep,
      isDeleteStep, isCpuReportStep, isStderrStep]

/-- Claim C9 witness: with tracing and coverage both on, finalization
precedes the trace close, the trace close precedes the coverage write
and the model destruction, and the CPU-time line is the only stderr
action. -/
theorem spec_C9_witness :
    ((teardownEvents true true 3 4).findIdx isFinalStep <
        (teardownEvents true true 3 4).findIdx isCloseStep) ∧
      ((teardownEvents true true 3 4).findIdx isCoverageStep <
        (teardownEvents true true 3 4).findIdx isDeleteStep) ∧
      ((teardownEvents true true 3 4).findIdx isCloseStep <
        (teardownEvents true true 3 4).findIdx isCoverageStep) ∧
      TStep.cpuTimeReport 3 4 = TStep.cpuTimeReport 3 4 :=
  ⟨((spec_C9 true true 3 4).2.1 rfl).1,
   ((spec_C9 true true 3 4).2.2.1 rfl).1,
   ((spec_C9 true true 3 4).2.2.1 rfl).2 rfl,
   (spec_C9 true true 3 4).2.2.2.2.2.2.2.1 (TStep.cpuTimeReport 3 4) (by decide) rfl⟩

/-- Claim C10: the debug hook `plusarg_value` copies the looked-up
value into the fixed 1024-byte static buffer with an unchecked `strcpy`
— the copy stays within the buffer exactly when the value is at most
1023 characters (1024 bytes with the NUL terminator) — and every call
returns the address of the same static buffer, so a later call
overwrites the contents that an earlier call's returned pointer refers
to. -/
theorem spec_C10 (lookup : String → String) (p1 p2 buf v : String) :
    (strcpyInBounds v ↔ v.length ≤ 1023) ∧
    (plusarg_value lookup p1 buf).1 = Ptr.staticBuffer ∧
    (plusarg_value lookup p2 (plusarg_value lookup p1 buf).2).1 =
      (plusarg_value lookup p1 buf).1 ∧
    (plusarg_value lookup p2 (plusarg_value lookup p1 buf).2).2 =
      lookup (lookupFormat p2) := by
  refine ⟨?_, rfl, rfl, rfl⟩
  unfold strcpyInBounds strcpyWriteCount bufferSize
  omega

/-- Claim C7 witness: with the flag given, the first iteration (time 0,
a multiple of 1000) prints the heartbeat line. -/
theorem spec_C7_witness :
    Step.heartbeatMsg 0 ∈ iterEvents true false initState :=
  (spec_C7 true false initState 0).mpr (by decide)

/-- Claim C10 witness: a concrete call returns the static buffer. -/
theorem spec_C10_witness :
    (plusarg_value (fun _ => "123") "random_seed=" "old").1 = Ptr.staticBuffer :=
  (spec_C10 (fun _ => "123") "random_seed=" "verbose=" "old" "123").2.1
